import Mathlib

/-! Overview.

Shallow embedding of the ASL-Live-Subtitles sentiment-microservice
(FastAPI + MySQL) for checking its natural-language specification.

Sources embedded:
  * src/models/sentiment.py   — pydantic request/response models
  * src/services/edenai_client.py — provider-result selection
  * src/db/sentiment_service.py — CRUD over the requests/sentiments tables
  * src/main.py               — HTTP handlers, ETag logic, async job runner

Modelling conventions:
  * UUIDs are Nat; `str(uuid)` is `toString`.
  * `datetime` values are POSIX timestamps as rationals (`DateTime.ts`);
    Python `int(dt.timestamp())` is `py_int` (truncation toward zero).
  * Floats (confidence, provider rates) are rationals.
  * The MySQL tables are lists of rows; `fetchone` after a WHERE clause is
    `List.find?` (first matching row).
  * Nondeterministic effects (uuid4, utcnow, the provider HTTP call, a
    storage fault) are passed to the embedded handlers as parameters: the
    provider call outcome is `Except String (List ProviderEntry)` (error =
    the exception raised by `requests.post` / `raise_for_status`, carrying
    `str(e)`), a storage fault is `Option String` (`some msg` = the DB
    driver raised an exception whose `str` is `msg`).
  * Raising `HTTPException(code, detail)` is returning an `HTTPError`.
-/

/-- UUIDs (src uses `uuid.UUID`); modelled as naturals. -/
abbrev UUID := Nat

/-- A `datetime.datetime` value, represented by its POSIX timestamp in
seconds (rational, so sub-second precision is representable). -/
structure DateTime where
  ts : Rat
deriving DecidableEq, Repr

/-- Python `int(x)` applied to a real timestamp: truncation toward zero.
The denominator of a `Rat` is positive, so `Int.div` (T-division) on
`num/den` is exactly toward-zero truncation. -/
def py_int (q : Rat) : Int :=
  Int.tdiv q.num (Int.ofNat q.den)

/-- src/models/sentiment.py lines 11-22: the `TextInput` request model. -/
structure TextInput where
  text : String
deriving DecidableEq, Repr

/-- src/models/sentiment.py lines 24-35: hypermedia links of a sentiment. -/
structure SentimentLinks where
  self : String
  collection : String
deriving DecidableEq, Repr

/-- src/models/sentiment.py lines 39-86: the `SentimentResult` model. -/
structure SentimentResult where
  id : UUID
  text : String
  sentiment : String
  confidence : Rat
  analyzed_at : DateTime
  links : Option SentimentLinks := none
deriving DecidableEq, Repr

/-- src/models/sentiment.py lines 89-92: the `SentimentUpdate` request
model.  Note: the source class declares ONLY the three fields below —
it has no `text` field. -/
structure SentimentUpdate where
  sentiment : Option String
  confidence : Option Rat
  analyzed_at : Option DateTime
deriving DecidableEq, Repr

/-- The Python attribute lookup `payload.text` performed by
`update_sentiment` (src/main.py line 271).  `SentimentUpdate` declares no
field named `text` (src/models/sentiment.py lines 89-92), so on every
instance this lookup raises
`AttributeError: 'SentimentUpdate' object has no attribute 'text'`. -/
def SentimentUpdate.text_lookup (_ : SentimentUpdate) : Except String (Option String) :=
  Except.error "\x27SentimentUpdate\x27 object has no attribute \x27text\x27"

/-- src/models/sentiment.py lines 98-109: links of an async job. -/
structure SentimentJobLinks where
  self : String
  result : Option String := none
deriving DecidableEq, Repr

/-- src/models/sentiment.py lines 112-170: the `SentimentJobStatus` model. -/
structure SentimentJobStatus where
  id : UUID
  status : String
  created_at : DateTime
  updated_at : DateTime
  result_id : Option UUID := none
  error_message : Option String := none
  links : Option SentimentJobLinks := none
deriving DecidableEq, Repr

/-- Embedding of `fastapi.HTTPException(status_code, detail)`. -/
structure HTTPError where
  status_code : Nat
  detail : String
deriving DecidableEq, Repr

/-! Section: Provider client (src/services/edenai_client.py) -/

/-- One entry of the JSON dict returned by the Eden AI endpoint: the
per-provider result inspected by `EdenAIClient.analyze_sentiment`
(src/services/edenai_client.py lines 30-34).  `general_sentiment` and
`general_sentiment_rate` are `None`/absent unless the provider returned
them (`dict.get` yields the default in both cases, so absent and null
coincide in the model). -/
structure ProviderEntry where
  provider : String
  status : String
  general_sentiment : Option String := none
  general_sentiment_rate : Option Rat := none
deriving DecidableEq, Repr

/-- The selection loop of `EdenAIClient.analyze_sentiment`
(src/services/edenai_client.py lines 27-36): scan the provider results in
order, keeping the result whose `general_sentiment_rate` strictly exceeds
the running maximum (initially -1), considering only entries with
`status == "success"` and a non-null rate. -/
def best_provider_loop : List ProviderEntry → Option ProviderEntry → Rat → Option ProviderEntry
  | [], best, _ => best
  | r :: rest, best, maxRate =>
    match r.general_sentiment_rate with
    | some rate =>
      if r.status = "success" then
        if maxRate < rate then best_provider_loop rest (some r) rate
        else best_provider_loop rest best maxRate
      else best_provider_loop rest best maxRate
    | none => best_provider_loop rest best maxRate

/-- Embedding of `EdenAIClient.analyze_sentiment` after a successful HTTP exchange
(src/services/edenai_client.py lines 25-36): pick the best successful
provider result, or `None` when there is none. -/
def analyze_sentiment (data : List ProviderEntry) : Option ProviderEntry :=
  best_provider_loop data none (-1)

/-! Case conversion in the analysis converter is Lean String.toLower
(`best_result.get("general_sentiment", "unknown").lower()`). -/

/-- Embedding of `sentiment_analysis` (src/main.py lines 42-62), given the provider
data the HTTP call returned.  `fresh_id` stands for `uuid4()` and `now`
for `datetime.utcnow()`. -/
def sentiment_analysis (fresh_id : UUID) (now : DateTime) (text : String)
    (data : List ProviderEntry) : SentimentResult :=
  match analyze_sentiment data with
  | none =>
    { id := fresh_id, text := text, sentiment := "unknown",
      confidence := 0, analyzed_at := now, links := none }
  | some best =>
    { id := fresh_id, text := text,
      sentiment := String.toLower (best.general_sentiment.getD "unknown"),
      confidence := best.general_sentiment_rate.getD 0,
      analyzed_at := now, links := none }

/-! Section: ETag and link helpers (src/main.py) -/

/-- Embedding of `compute_etag` (src/main.py lines 64-76):
`W/"<id>-<int(analyzed_at.timestamp())>"`. -/
def compute_etag (sentiment : SentimentResult) : String :=
  "W/\"" ++ toString sentiment.id ++ "-" ++ toString (py_int sentiment.analyzed_at.ts) ++ "\""

/-- Embedding of `attach_links` (src/main.py lines 78-91): rebuild the record with
`links.self = /sentiments/<id>` and `links.collection = /sentiments`. -/
def attach_links (sentiment : SentimentResult) : SentimentResult :=
  { sentiment with
    links := some { self := "/sentiments/" ++ toString sentiment.id,
                    collection := "/sentiments" } }

/-- Embedding of `attach_job_links` (src/main.py lines 93-107). -/
def attach_job_links (job : SentimentJobStatus) : SentimentJobStatus :=
  { job with
    links := some { self := "/sentiment-async/" ++ toString job.id,
                    result := match job.result_id with
                              | some rid => some ("/sentiments/" ++ toString rid)
                              | none => none } }

/-! Section: Database service (src/db/sentiment_service.py) -/

/-- A row of the `requests` table (insert at
src/db/sentiment_service.py lines 45-56). -/
structure RequestRow where
  id : UUID
  input_text : String
  created_at : DateTime
  user_id : Option UUID := none
deriving DecidableEq, Repr

/-- A row of the `sentiments` table (insert at
src/db/sentiment_service.py lines 59-71). -/
structure SentimentRow where
  id : UUID
  request_id : UUID
  sentiment : String
  confidence : Rat
  analyzed_at : DateTime
deriving DecidableEq, Repr

/-- The relational store: the two tables operated on by
`SentimentMySQLService`. -/
structure DB where
  requests : List RequestRow
  sentiments : List SentimentRow
deriving DecidableEq, Repr

namespace SentimentMySQLService

/-- Embedding of `_map_row_to_sentiment` (src/db/sentiment_service.py lines 18-31):
build the API model from a joined (sentiment, request) row pair. -/
def map_row_to_sentiment (s : SentimentRow) (r : RequestRow) : SentimentResult :=
  { id := s.id, text := r.input_text, sentiment := s.sentiment,
    confidence := s.confidence, analyzed_at := s.analyzed_at, links := none }

/-- Embedding of `retrieve` (src/db/sentiment_service.py lines 85-110): SELECT the
sentiment row by id JOINed with its request row, `fetchone`. -/
def retrieve (db : DB) (sentiment_id : UUID) : Option SentimentResult :=
  match db.sentiments.find? (fun s => s.id == sentiment_id) with
  | none => none
  | some s =>
    match db.requests.find? (fun r => r.id == s.request_id) with
    | none => none
    | some r => some (map_row_to_sentiment s r)

/-- Embedding of `create` (src/db/sentiment_service.py lines 34-82): insert a request
row and a sentiment row, then return the freshly joined record
(`self.retrieve(result_data.id)`), falling back to `result_data` when the
re-read finds nothing.  `request_id` stands for the `uuid4()` drawn
inside `create`. -/
def create (db : DB) (request_id : UUID) (request_data : TextInput)
    (result_data : SentimentResult) : DB × SentimentResult :=
  let db1 : DB :=
    { requests := db.requests ++
        [{ id := request_id, input_text := request_data.text,
           created_at := result_data.analyzed_at, user_id := none }],
      sentiments := db.sentiments ++
        [{ id := result_data.id, request_id := request_id,
           sentiment := result_data.sentiment,
           confidence := result_data.confidence,
           analyzed_at := result_data.analyzed_at }] }
  (db1, (retrieve db1 result_data.id).getD result_data)

/-- Embedding of `update_with_new_analysis` (src/db/sentiment_service.py lines
215-276): look up the request id of the sentiment row, UPDATE
`requests.input_text`, UPDATE the sentiment fields keeping the same id,
then return the re-read joined record. -/
def update_with_new_analysis (db : DB) (sentiment_id : UUID) (new_text : String)
    (result_data : SentimentResult) : DB × Option SentimentResult :=
  match db.sentiments.find? (fun s => s.id == sentiment_id) with
  | none => (db, none)
  | some s0 =>
    let db1 : DB :=
      { requests := db.requests.map (fun r =>
          if r.id == s0.request_id then { r with input_text := new_text } else r),
        sentiments := db.sentiments.map (fun s =>
          if s.id == sentiment_id then
            { s with sentiment := result_data.sentiment,
                     confidence := result_data.confidence,
                     analyzed_at := result_data.analyzed_at }
          else s) }
    (db1, retrieve db1 sentiment_id)

/-- Embedding of `delete` (src/db/sentiment_service.py lines 279-300): look up the
request id of the sentiment row; if absent return False, else DELETE the
sentiment rows with that id and the request rows with the found request
id and return True. -/
def delete (db : DB) (sentiment_id : UUID) : DB × Bool :=
  match db.sentiments.find? (fun s => s.id == sentiment_id) with
  | none => (db, false)
  | some s0 =>
    ({ requests := db.requests.filter (fun r => !(r.id == s0.request_id)),
       sentiments := db.sentiments.filter (fun s => !(s.id == sentiment_id)) },
     true)

end SentimentMySQLService

/-! Section: Synchronous HTTP handlers (src/main.py) -/

/-- Response of `GET /sentiments/{id}` (src/main.py lines 209-256):
either 304 with no body, 200 with the ETag header and the record, or an
`HTTPException`. -/
inductive GetResp where
  | notModified
  | ok (etag : String) (body : SentimentResult)
  | err (e : HTTPError)
deriving DecidableEq, Repr

/-- HTTP status code carried by a `GetResp`. -/
def GetResp.status_code : GetResp → Nat
  | .notModified => 304
  | .ok _ _ => 200
  | .err e => e.status_code

/-- Body carried by a `GetResp` (none on 304 and on errors). -/
def GetResp.body? : GetResp → Option SentimentResult
  | .notModified => none
  | .ok _ b => some b
  | .err _ => none

/-- Embedding of `get_sentiment` (src/main.py lines 220-250): retrieve the record
(404 when absent), compute its ETag, return 304 when the caller supplied
exactly that value in `If-None-Match`, else 200 with the ETag header and
the linked record. -/
def get_sentiment (db : DB) (sentiment_id : UUID) (if_none_match : Option String) : GetResp :=
  match SentimentMySQLService.retrieve db sentiment_id with
  | none => GetResp.err { status_code := 404, detail := "Sentiment not found" }
  | some record =>
    let current_etag := compute_etag record
    if if_none_match = some current_etag then GetResp.notModified
    else GetResp.ok current_etag (attach_links record)

/-- Response of `POST /sentiments` (src/main.py lines 186-206). -/
inductive CreateResp where
  | created (location : String) (body : SentimentResult)
  | err (e : HTTPError)
deriving DecidableEq, Repr

/-- HTTP status code carried by a `CreateResp` (the route is declared
with `status_code=201`). -/
def CreateResp.status_code : CreateResp → Nat
  | .created _ _ => 201
  | .err e => e.status_code

/-- Embedding of `create_sentiment` (src/main.py lines 186-206): run the analysis,
insert the rows, attach links, set the Location header to
`/sentiments/<created.id>` and return the created record; any exception
from the provider call or the driver becomes a 500. `provider` is the
outcome of the Eden AI HTTP call, `storage_fault` injects a driver
exception (`none` = storage succeeds). -/
def create_sentiment (db : DB) (payload : TextInput)
    (provider : Except String (List ProviderEntry)) (storage_fault : Option String)
    (fresh_sid fresh_reqid : UUID) (now : DateTime) : DB × CreateResp :=
  match provider with
  | .error e => (db, .err { status_code := 500, detail := "Database error: " ++ e })
  | .ok data =>
    match storage_fault with
    | some e => (db, .err { status_code := 500, detail := "Database error: " ++ e })
    | none =>
      let result := sentiment_analysis fresh_sid now payload.text data
      let step := SentimentMySQLService.create db fresh_reqid payload result
      let created := attach_links step.2
      (step.1, .created ("/sentiments/" ++ toString created.id) created)

/-- Response of `PUT /sentiments/{id}` (src/main.py lines 259-292). -/
inductive UpdateResp where
  | ok (body : SentimentResult)
  | err (e : HTTPError)
deriving DecidableEq, Repr

/-- HTTP status code carried by an `UpdateResp`. -/
def UpdateResp.status_code : UpdateResp → Nat
  | .ok _ => 200
  | .err e => e.status_code

/-- Embedding of `update_sentiment` (src/main.py lines 259-292).  The handler first
evaluates `payload.text` (line 271); since the `SentimentUpdate` model
has no `text` field this attribute lookup raises, and the generic
`except Exception` arm (line 291) turns the `AttributeError` into a 500.
The remaining arms embed the rest of the handler as written: the 400 for
a null text (line 272), the re-analysis plus
`update_with_new_analysis` (lines 274-283), the 404 (line 285) and the
link attachment (line 288). -/
def update_sentiment (db : DB) (sentiment_id : UUID) (payload : SentimentUpdate)
    (provider : Except String (List ProviderEntry)) (fresh_sid : UUID)
    (now : DateTime) : DB × UpdateResp :=
  match payload.text_lookup with
  | .error e => (db, .err { status_code := 500, detail := "Database error: " ++ e })
  | .ok none => (db, .err { status_code := 400, detail := "No text provided to update" })
  | .ok (some text) =>
    match provider with
    | .error e => (db, .err { status_code := 500, detail := "Database error: " ++ e })
    | .ok data =>
      let new_result := sentiment_analysis fresh_sid now text data
      let step := SentimentMySQLService.update_with_new_analysis db sentiment_id text new_result
      match step.2 with
      | none => (step.1, .err { status_code := 404, detail := "Sentiment not found" })
      | some updated => (step.1, .ok (attach_links updated))

/-- Response of `DELETE /sentiments/{id}` (src/main.py lines 295-307). -/
inductive DeleteResp where
  | noContent
  | err (e : HTTPError)
deriving DecidableEq, Repr

/-- HTTP status code carried by a `DeleteResp` (the route is declared
with `status_code=204`). -/
def DeleteResp.status_code : DeleteResp → Nat
  | .noContent => 204
  | .err e => e.status_code

/-- Embedding of `delete_sentiment` (src/main.py lines 295-307): 204 when
`service.delete` reports a deletion, 404 otherwise. -/
def delete_sentiment (db : DB) (sentiment_id : UUID) : DB × DeleteResp :=
  let step := SentimentMySQLService.delete db sentiment_id
  if step.2 then (step.1, .noContent)
  else (step.1, .err { status_code := 404, detail := "Sentiment not found" })

/-! Section: Async job subsystem (src/main.py) -/

/-- The module-level `sentiment_jobs` dict (src/main.py line 39),
modelled as an association list in insertion order (Python dicts keep
insertion order; assigning an existing key updates it in place). -/
abbrev JobStore := List (UUID × SentimentJobStatus)

/-- Embedding of `sentiment_jobs.get(job_id)`. -/
def JobStore.get (m : JobStore) (k : UUID) : Option SentimentJobStatus :=
  (m.find? (fun p => p.1 == k)).map Prod.snd

/-- Embedding of `sentiment_jobs[job_id] = job`: update in place, or append. -/
def JobStore.set : JobStore → UUID → SentimentJobStatus → JobStore
  | [], k, v => [(k, v)]
  | (k2, v2) :: rest, k, v =>
    if k2 == k then (k, v) :: rest else (k2, v2) :: JobStore.set rest k v

/-- Response of `POST /sentiment-async` (src/main.py lines 320-359);
the route is declared with `status_code=202`. -/
inductive AsyncCreateResp where
  | accepted (location : String) (body : SentimentJobStatus)
deriving DecidableEq, Repr

/-- Embedding of `create_async_sentiment` (src/main.py lines 326-359): store a fresh
pending job, schedule the background task, set the Location header and
return the linked job.  `job_id` stands for the `uuid4()` and `now` for
`datetime.utcnow()` drawn in the handler. -/
def create_async_sentiment (jobs : JobStore) (_payload : TextInput)
    (job_id : UUID) (now : DateTime) : JobStore × AsyncCreateResp :=
  let job : SentimentJobStatus :=
    { id := job_id, status := "pending", created_at := now, updated_at := now,
      result_id := none, error_message := none, links := none }
  (JobStore.set jobs job_id job,
   .accepted ("/sentiment-async/" ++ toString job_id) (attach_job_links job))

/-- Embedding of `get_async_sentiment_status` (src/main.py lines 366-380): 404 for an
unknown job id, otherwise the stored job with links attached. -/
def get_async_sentiment_status (jobs : JobStore) (job_id : UUID) :
    Except HTTPError SentimentJobStatus :=
  match JobStore.get jobs job_id with
  | none => Except.error { status_code := 404, detail := "Job not found" }
  | some job => Except.ok (attach_job_links job)

/-- The mutation `job.status = "running"; job.updated_at = now`
(src/main.py lines 127-128). -/
def markRunning (job : SentimentJobStatus) (now : DateTime) : SentimentJobStatus :=
  { job with status := "running", updated_at := now }

/-- The mutation at src/main.py lines 142-144: completed, fresh
`updated_at`, `result_id = created.id`. -/
def markCompleted (job : SentimentJobStatus) (now : DateTime) (rid : UUID) : SentimentJobStatus :=
  { job with status := "completed", updated_at := now, result_id := some rid }

/-- The mutation at src/main.py lines 149-151: failed, fresh
`updated_at`, `error_message = str(e)`. -/
def markFailed (job : SentimentJobStatus) (now : DateTime) (msg : String) : SentimentJobStatus :=
  { job with status := "failed", updated_at := now, error_message := some msg }

/-- The successive (job store, database) states written by
`run_sentiment_job` (src/main.py lines 109-152), one entry per
assignment to `sentiment_jobs[job_id]`, in program order.  The `sleep`
calls separate these writes, so each entry is a state a concurrent poll
can observe.  Parameters model the effects: `provider` is the outcome of
the Eden AI HTTP call inside `sentiment_analysis`, `storage_fault`
injects an exception from `service.create`, `fresh_sid`/`fresh_reqid`
are the `uuid4()` draws, `now1` is the `now` captured at entry (line
116), `nowA` the analysis time and `now2` the `utcnow()` of the terminal
write.  An empty list means the guard at lines 118-120 returned early. -/
def run_sentiment_job_writes (jobs : JobStore) (db : DB) (job_id : UUID) (text : String)
    (provider : Except String (List ProviderEntry)) (storage_fault : Option String)
    (fresh_sid fresh_reqid : UUID) (now1 nowA now2 : DateTime) : List (JobStore × DB) :=
  match JobStore.get jobs job_id with
  | none => []
  | some job =>
    let job1 := markRunning job now1
    let jobs1 := JobStore.set jobs job_id job1
    match provider with
    | .error e =>
      [(jobs1, db), (JobStore.set jobs1 job_id (markFailed job1 now2 e), db)]
    | .ok data =>
      match storage_fault with
      | some e =>
        [(jobs1, db), (JobStore.set jobs1 job_id (markFailed job1 now2 e), db)]
      | none =>
        let result := sentiment_analysis fresh_sid nowA text data
        let step := SentimentMySQLService.create db fresh_reqid { text := text } result
        [(jobs1, db),
         (JobStore.set jobs1 job_id (markCompleted job1 now2 step.2.id), step.1)]

/-- Embedding of `run_sentiment_job` (src/main.py lines 109-152): the final (job
store, database) state of the background task; the function always
returns normally — every exception arising inside the `try` block is
caught by the `except Exception` arm (lines 147-152). -/
def run_sentiment_job (jobs : JobStore) (db : DB) (job_id : UUID) (text : String)
    (provider : Except String (List ProviderEntry)) (storage_fault : Option String)
    (fresh_sid fresh_reqid : UUID) (now1 nowA now2 : DateTime) : JobStore × DB :=
  (run_sentiment_job_writes jobs db job_id text provider storage_fault
    fresh_sid fresh_reqid now1 nowA now2).getLastD (jobs, db)

/-- The full observable lifecycle of one async job: the store/database
states after the submission write of `create_async_sentiment` and after
each write of its background `run_sentiment_job` task. -/
def jobLifecycleStates (jobs : JobStore) (db : DB) (text : String) (job_id : UUID)
    (now0 : DateTime) (provider : Except String (List ProviderEntry))
    (storage_fault : Option String) (fresh_sid fresh_reqid : UUID)
    (now1 nowA now2 : DateTime) : List (JobStore × DB) :=
  let s0 := (create_async_sentiment jobs { text := text } job_id now0).1
  (s0, db) :: run_sentiment_job_writes s0 db job_id text provider storage_fault
    fresh_sid fresh_reqid now1 nowA now2

/-- The sequence of status strings the job store holds for `job_id`
over the lifecycle of the job. -/
def lifecycleStatuses (jobs : JobStore) (db : DB) (text : String) (job_id : UUID)
    (now0 : DateTime) (provider : Except String (List ProviderEntry))
    (storage_fault : Option String) (fresh_sid fresh_reqid : UUID)
    (now1 nowA now2 : DateTime) : List String :=
  (jobLifecycleStates jobs db text job_id now0 provider storage_fault
    fresh_sid fresh_reqid now1 nowA now2).filterMap
    (fun s => (JobStore.get s.1 job_id).map SentimentJobStatus.status)

/-- Rank of a job status along the forward order
pending → running → terminal. -/
def statusRank (st : String) : Nat :=
  if st = "pending" then 0 else if st = "running" then 1 else 2

/-- The field part of the spec invariant on job records: `result_id` set
exactly on completed jobs, `error_message` exactly on failed ones, both
null while pending or running, never both set. -/
def job_field_invariant (j : SentimentJobStatus) : Prop :=
  (j.status = "completed" → j.result_id ≠ none ∧ j.error_message = none) ∧
  (j.status = "failed" → j.result_id = none ∧ j.error_message ≠ none) ∧
  (j.status = "pending" ∨ j.status = "running" → j.result_id = none ∧ j.error_message = none) ∧
  ¬(j.result_id ≠ none ∧ j.error_message ≠ none)

instance (j : SentimentJobStatus) : Decidable (job_field_invariant j) := by
  unfold job_field_invariant
  infer_instance

/-! Section: Concrete fixtures used by witness theorems -/

/-- A concrete pending job. -/
def wJob : SentimentJobStatus :=
  { id := 1, status := "pending", created_at := { ts := 0 }, updated_at := { ts := 0 } }

/-- A concrete database holding one joined record (id 7, request 3). -/
def wDB : DB :=
  { requests := [{ id := 3, input_text := "hi", created_at := { ts := 10 } }],
    sentiments := [{ id := 7, request_id := 3, sentiment := "positive",
                     confidence := ⟨1, 2, by decide, by decide⟩, analyzed_at := { ts := 10 } }] }

/-- The joined record stored in `wDB`. -/
def wRecord : SentimentResult :=
  { id := 7, text := "hi", sentiment := "positive", confidence := ⟨1, 2, by decide, by decide⟩,
    analyzed_at := { ts := 10 } }

/-- Embedding of `wRecord` with the timestamp shifted by half a second: same whole
second, different instant. -/
def wRecordHalf : SentimentResult :=
  { wRecord with analyzed_at := { ts := ⟨21, 2, by decide, by decide⟩ } }

/-- The sentiment row stored in `wDB`. -/
def wRow : SentimentRow :=
  { id := 7, request_id := 3, sentiment := "positive",
    confidence := ⟨1, 2, by decide, by decide⟩, analyzed_at := { ts := 10 } }

/-- Provider data with no successful entry carrying a rate. -/
def wData : List ProviderEntry :=
  [{ provider := "google", status := "fail" },
   { provider := "amazon", status := "success", general_sentiment_rate := none }]

/-! Section: Helper lemmas -/

/-- Embedding of `find?` over a `map` that leaves the predicate unchanged. -/
theorem find_map_pred {α : Type} (l : List α) (f : α → α) (q : α → Bool)
    (h : ∀ x, q (f x) = q x) : (l.map f).find? q = (l.find? q).map f := by
  rw [List.find?_map, show q ∘ f = q from funext h]

/-- A key just written to the job store is read back. -/
theorem JobStore.get_set_self (m : JobStore) (k : UUID) (v : SentimentJobStatus) :
    JobStore.get (JobStore.set m k v) k = some v := by
  induction m with
  | nil => simp [JobStore.set, JobStore.get]
  | cons hd tl ih =>
    rcases hd with ⟨kh, vh⟩
    by_cases h : kh = k
    · subst h
      simp [JobStore.set, JobStore.get]
    · simp only [JobStore.set, beq_iff_eq, h, if_false]
      simp only [JobStore.get] at ih ⊢
      rw [List.find?_cons_of_neg _ (by simpa using h)]
      exact ih

/-- Writing one key leaves every other key of the job store unchanged. -/
theorem JobStore.get_set_ne (m : JobStore) (k k2 : UUID) (v : SentimentJobStatus)
    (h : k2 ≠ k) : JobStore.get (JobStore.set m k v) k2 = JobStore.get m k2 := by
  have hkk : (k == k2) = false := beq_eq_false_iff_ne.mpr (Ne.symm h)
  induction m with
  | nil =>
    simp only [JobStore.set, JobStore.get]
    rw [List.find?_cons_of_neg _ (by simp [hkk]), List.find?_nil]
  | cons hd tl ih =>
    rcases hd with ⟨kh, vh⟩
    by_cases hh : kh = k
    · subst hh
      simp only [JobStore.set, beq_self_eq_true, if_true, JobStore.get]
      rw [List.find?_cons_of_neg _ (by simp [hkk]),
          List.find?_cons_of_neg _ (by simp [show (kh == k2) = false from hkk])]
    · simp only [JobStore.set, beq_iff_eq, hh, if_false]
      by_cases hk2 : kh = k2
      · subst hk2
        simp only [JobStore.get]
        rw [List.find?_cons_of_pos _ (by simp), List.find?_cons_of_pos _ (by simp)]
      · simp only [JobStore.get] at ih ⊢
        rw [List.find?_cons_of_neg _ (by simpa using hk2),
            List.find?_cons_of_neg _ (by simpa using hk2)]
        exact ih

/-- Unpacking a successful `retrieve`: the sentiment row and its joined
request row both exist and produce the returned record. -/
theorem retrieve_elim {db : DB} {sid : UUID} {old : SentimentResult}
    (h : SentimentMySQLService.retrieve db sid = some old) :
    ∃ s0 r0, db.sentiments.find? (fun s => s.id == sid) = some s0 ∧
      db.requests.find? (fun r => r.id == s0.request_id) = some r0 ∧
      old = SentimentMySQLService.map_row_to_sentiment s0 r0 := by
  unfold SentimentMySQLService.retrieve at h
  split at h
  · exact absurd h (by simp)
  · rename_i s0 hfind
    split at h
    · exact absurd h (by simp)
    · rename_i r0 hreq
      exact ⟨s0, r0, hfind, hreq, (Option.some.injEq _ _).mp h.symm⟩

/-- Behavior of `update_with_new_analysis` on an existing joined record:
the request text and the sentiment fields are updated in place, the
record id is preserved, and the updated joined record is returned. -/
theorem update_with_new_analysis_spec (db : DB) (sid : UUID) (new_text : String)
    (res old : SentimentResult)
    (hret : SentimentMySQLService.retrieve db sid = some old) :
    ∃ db1, SentimentMySQLService.update_with_new_analysis db sid new_text res =
      (db1, some { id := sid, text := new_text, sentiment := res.sentiment, confidence := res.confidence, analyzed_at := res.analyzed_at, links := none }) ∧
      SentimentMySQLService.retrieve db1 sid =
        some { id := sid, text := new_text, sentiment := res.sentiment, confidence := res.confidence, analyzed_at := res.analyzed_at, links := none } := by
  obtain ⟨s0, r0, hfind, hreq, -⟩ := retrieve_elim hret
  have hs0 := List.find?_some hfind
  have hr0 := List.find?_some hreq
  have hid : s0.id = sid := by simpa using hs0
  have hrid : r0.id = s0.request_id := by simpa using hr0
  set fs : SentimentRow → SentimentRow := fun s => if s.id == sid then { s with sentiment := res.sentiment, confidence := res.confidence, analyzed_at := res.analyzed_at } else s with hfs
  set fr : RequestRow → RequestRow := fun r => if r.id == s0.request_id then { r with input_text := new_text } else r with hfr
  have hsent : (db.sentiments.map fs).find? (fun s => s.id == sid) = some (fs s0) := by
    rw [find_map_pred _ fs _ (fun x => by by_cases hx : x.id = sid <;> simp [hfs, hx]), hfind]
    rfl
  have hfs0 : fs s0 = { s0 with sentiment := res.sentiment, confidence := res.confidence, analyzed_at := res.analyzed_at } := by
    simp [hfs, hid]
  have hreqm : (db.requests.map fr).find? (fun r => r.id == s0.request_id) = some (fr r0) := by
    rw [find_map_pred _ fr _ (fun x => by by_cases hx : x.id = s0.request_id <;> simp [hfr, hx]), hreq]
    rfl
  have hfr0 : fr r0 = { r0 with input_text := new_text } := by
    simp [hfr, hrid]
  have key : SentimentMySQLService.retrieve { requests := db.requests.map fr, sentiments := db.sentiments.map fs } sid = some { id := sid, text := new_text, sentiment := res.sentiment, confidence := res.confidence, analyzed_at := res.analyzed_at, links := none } := by
    unfold SentimentMySQLService.retrieve
    dsimp only
    rw [hsent, hfs0]
    dsimp only
    rw [hreqm, hfr0]
    simp [SentimentMySQLService.map_row_to_sentiment, hid]
  have key2 := key
  rw [hfs, hfr] at key2
  refine ⟨_, ?_, key⟩
  simp only [SentimentMySQLService.update_with_new_analysis, hfind]
  rw [key2]

/-- C1: the spec expects `PUT /sentiments/{id}` with body `{"text": null}`
to answer 400 "No text provided to update" and leave the stored record
unchanged.  On the code, that body parses into `SentimentUpdate` (the
unknown key `text` is ignored and the declared fields default to null),
and the handler first evaluates `payload.text` (src/main.py line 271),
which raises AttributeError because the model has no such field
(src/models/sentiment.py lines 89-92); the generic `except Exception`
arm turns it into a 500.  This theorem evaluates the embedded handler on
that failing input: the response is the 500, not the specified 400 — the
database is indeed left unchanged. -/
theorem C1_put_null_text_gives_500 (db : DB) (sentiment_id : UUID)
    (provider : Except String (List ProviderEntry)) (fresh_sid : UUID) (now : DateTime) :
    update_sentiment db sentiment_id
        { sentiment := none, confidence := none, analyzed_at := none }
        provider fresh_sid now =
      (db, UpdateResp.err { status_code := 500, detail := "Database error: \x27SentimentUpdate\x27 object has no attribute \x27text\x27" }) := rfl

/-- C2: the spec expects `PUT /sentiments/{id}` with a non-null text to
re-run the analysis and update text/sentiment/confidence/analyzed_at in
place, keeping the record id.  The service layer
`update_with_new_analysis` indeed behaves exactly so (second conjunct),
but the handler can never reach it: `payload.text` raises
AttributeError for every parsed request body, so on the code every PUT
answers 500 and leaves the database untouched (first conjunct). -/
theorem C2_put_reanalyzes_in_place (db : DB) (sid : UUID) (payload : SentimentUpdate)
    (provider : Except String (List ProviderEntry)) (fresh_sid : UUID) (now : DateTime)
    (new_text : String) (res old : SentimentResult)
    (hret : SentimentMySQLService.retrieve db sid = some old) :
    update_sentiment db sid payload provider fresh_sid now =
      (db, UpdateResp.err { status_code := 500, detail := "Database error: \x27SentimentUpdate\x27 object has no attribute \x27text\x27" }) ∧
    ∃ db1, SentimentMySQLService.update_with_new_analysis db sid new_text res =
      (db1, some { id := sid, text := new_text, sentiment := res.sentiment, confidence := res.confidence, analyzed_at := res.analyzed_at, links := none }) ∧
      SentimentMySQLService.retrieve db1 sid =
        some { id := sid, text := new_text, sentiment := res.sentiment, confidence := res.confidence, analyzed_at := res.analyzed_at, links := none } :=
  ⟨rfl, update_with_new_analysis_spec db sid new_text res old hret⟩

/-- Witness for C2 at a concrete database. -/
theorem C2_witness :
    SentimentMySQLService.retrieve wDB 7 = some wRecord ∧
    (update_sentiment wDB 7 { sentiment := none, confidence := none, analyzed_at := none } (Except.ok wData) 9 { ts := 11 } =
      (wDB, UpdateResp.err { status_code := 500, detail := "Database error: \x27SentimentUpdate\x27 object has no attribute \x27text\x27" }) ∧
     ∃ db1, SentimentMySQLService.update_with_new_analysis wDB 7 "changed" wRecordHalf =
       (db1, some { id := 7, text := "changed", sentiment := wRecordHalf.sentiment, confidence := wRecordHalf.confidence, analyzed_at := wRecordHalf.analyzed_at, links := none }) ∧
       SentimentMySQLService.retrieve db1 7 =
         some { id := 7, text := "changed", sentiment := wRecordHalf.sentiment, confidence := wRecordHalf.confidence, analyzed_at := wRecordHalf.analyzed_at, links := none }) :=
  ⟨by decide,
   C2_put_reanalyzes_in_place wDB 7 { sentiment := none, confidence := none, analyzed_at := none }
     (Except.ok wData) 9 { ts := 11 } "changed" wRecordHalf wRecord (by decide)⟩

/-- C5: `compute_etag` depends only on the record id and the
`analyzed_at` timestamp truncated to whole seconds (first two
conjuncts: recomputation on the same record is identical, and any two
records agreeing on id and truncated timestamp get the same validator),
and a `GET /sentiments/{id}` whose `If-None-Match` equals the record's
current validator answers 304 with an empty body. -/
theorem C5_etag_roundtrip (r1 r2 record : SentimentResult) (db : DB) (sid : UUID)
    (hid : r1.id = r2.id)
    (hts : py_int r1.analyzed_at.ts = py_int r2.analyzed_at.ts)
    (hret : SentimentMySQLService.retrieve db sid = some record) :
    compute_etag r1 = compute_etag r1 ∧
    compute_etag r1 = compute_etag r2 ∧
    get_sentiment db sid (some (compute_etag record)) = GetResp.notModified ∧
    GetResp.status_code (get_sentiment db sid (some (compute_etag record))) = 304 ∧
    GetResp.body? (get_sentiment db sid (some (compute_etag record))) = none := by
  have h304 : get_sentiment db sid (some (compute_etag record)) = GetResp.notModified := by
    unfold get_sentiment
    rw [hret]
    simp
  refine ⟨rfl, by unfold compute_etag; rw [hid, hts], h304, ?_, ?_⟩
  · rw [h304]
    rfl
  · rw [h304]
    rfl

/-- Witness for C5: two instants inside the same whole second (10 s and
10.5 s) produce the identical validator, and presenting it yields 304. -/
theorem C5_witness :
    (wRecord.id = wRecordHalf.id ∧
     py_int wRecord.analyzed_at.ts = py_int wRecordHalf.analyzed_at.ts ∧
     SentimentMySQLService.retrieve wDB 7 = some wRecord) ∧
    (compute_etag wRecord = compute_etag wRecord ∧
     compute_etag wRecord = compute_etag wRecordHalf ∧
     get_sentiment wDB 7 (some (compute_etag wRecord)) = GetResp.notModified ∧
     GetResp.status_code (get_sentiment wDB 7 (some (compute_etag wRecord))) = 304 ∧
     GetResp.body? (get_sentiment wDB 7 (some (compute_etag wRecord))) = none) :=
  ⟨⟨by decide, by decide, by decide⟩,
   C5_etag_roundtrip wRecord wRecordHalf wRecord wDB 7 (by decide) (by decide) (by decide)⟩

/-- C7: polling an unknown job id yields the 404 "Job not found";
polling a known id returns the stored job (a snapshot of its current
state: every data field of the response equals the stored one, with
hypermedia links attached). -/
theorem C7_poll_snapshot_or_404 (jobs : JobStore) (job_id : UUID) :
    (JobStore.get jobs job_id = none →
      get_async_sentiment_status jobs job_id =
        Except.error { status_code := 404, detail := "Job not found" }) ∧
    (∀ j, JobStore.get jobs job_id = some j →
      get_async_sentiment_status jobs job_id = Except.ok (attach_job_links j) ∧
      (attach_job_links j).id = j.id ∧ (attach_job_links j).status = j.status ∧
      (attach_job_links j).created_at = j.created_at ∧
      (attach_job_links j).updated_at = j.updated_at ∧
      (attach_job_links j).result_id = j.result_id ∧
      (attach_job_links j).error_message = j.error_message) := by
  constructor
  · intro h
    unfold get_async_sentiment_status
    rw [h]
  · intro j h
    unfold get_async_sentiment_status
    rw [h]
    exact ⟨rfl, rfl, rfl, rfl, rfl, rfl, rfl⟩

/-- Witness for C7: a store holding one job, polled at its id and at an
absent id. -/
theorem C7_witness :
    (JobStore.get [(1, wJob)] 1 = some wJob ∧ JobStore.get [] 5 = none) ∧
    get_async_sentiment_status [(1, wJob)] 1 = Except.ok (attach_job_links wJob) ∧
    get_async_sentiment_status [] 5 =
      Except.error { status_code := 404, detail := "Job not found" } :=
  ⟨⟨by decide, by decide⟩,
   ((C7_poll_snapshot_or_404 [(1, wJob)] 1).2 wJob (by decide)).1,
   (C7_poll_snapshot_or_404 [] 5).1 (by decide)⟩

/-- C9: DELETE answers 204 when the id exists — removing the sentiment
rows with that id together with the joined request rows — and 404 when
it does not; in particular a second DELETE of the same id answers 404. -/
theorem C9_delete_semantics (db : DB) (sid : UUID) :
    (db.sentiments.find? (fun s => s.id == sid) = none →
      delete_sentiment db sid = (db, DeleteResp.err { status_code := 404, detail := "Sentiment not found" })) ∧
    (∀ s0, db.sentiments.find? (fun s => s.id == sid) = some s0 →
      DeleteResp.status_code (delete_sentiment db sid).2 = 204 ∧
      (delete_sentiment db sid).1.sentiments = db.sentiments.filter (fun s => !(s.id == sid)) ∧
      (delete_sentiment db sid).1.requests = db.requests.filter (fun r => !(r.id == s0.request_id)) ∧
      SentimentMySQLService.retrieve (delete_sentiment db sid).1 sid = none ∧
      delete_sentiment (delete_sentiment db sid).1 sid =
        ((delete_sentiment db sid).1, DeleteResp.err { status_code := 404, detail := "Sentiment not found" })) := by
  constructor
  · intro h
    unfold delete_sentiment SentimentMySQLService.delete
    rw [h]
    rfl
  · intro s0 h
    have hdel : SentimentMySQLService.delete db sid =
        ({ requests := db.requests.filter (fun r => !(r.id == s0.request_id)),
           sentiments := db.sentiments.filter (fun s => !(s.id == sid)) }, true) := by
      unfold SentimentMySQLService.delete
      rw [h]
    have hfn : (db.sentiments.filter (fun s => !(s.id == sid))).find? (fun s => s.id == sid) = none := by
      apply List.find?_eq_none.mpr
      intro x hx
      have hx2 := (List.mem_filter.mp hx).2
      simp only [Bool.not_eq_eq_eq_not, Bool.not_true] at hx2
      simp [hx2]
    have hresp : delete_sentiment db sid =
        ({ requests := db.requests.filter (fun r => !(r.id == s0.request_id)),
           sentiments := db.sentiments.filter (fun s => !(s.id == sid)) }, DeleteResp.noContent) := by
      unfold delete_sentiment
      rw [hdel]
      rfl
    refine ⟨by rw [hresp]; rfl, by rw [hresp], by rw [hresp], ?_, ?_⟩
    · rw [hresp]
      unfold SentimentMySQLService.retrieve
      dsimp only
      rw [hfn]
    · rw [hresp]
      unfold delete_sentiment SentimentMySQLService.delete
      dsimp only
      rw [hfn]
      rfl

/-- Witness for C9: delete the one stored record, then delete it again. -/
theorem C9_witness :
    wDB.sentiments.find? (fun s => s.id == 7) = some wRow ∧
    (DeleteResp.status_code (delete_sentiment wDB 7).2 = 204 ∧
     (delete_sentiment wDB 7).1.sentiments = wDB.sentiments.filter (fun s => !(s.id == 7)) ∧
     (delete_sentiment wDB 7).1.requests = wDB.requests.filter (fun r => !(r.id == wRow.request_id)) ∧
     SentimentMySQLService.retrieve (delete_sentiment wDB 7).1 7 = none ∧
     delete_sentiment (delete_sentiment wDB 7).1 7 =
       ((delete_sentiment wDB 7).1, DeleteResp.err { status_code := 404, detail := "Sentiment not found" })) :=
  ⟨by decide, (C9_delete_semantics wDB 7).2 wRow (by decide)⟩

/-- The id of a freshly analyzed result is the freshly drawn uuid. -/
theorem sentiment_analysis_id (fresh_id : UUID) (now : DateTime) (text : String)
    (data : List ProviderEntry) : (sentiment_analysis fresh_id now text data).id = fresh_id := by
  unfold sentiment_analysis
  cases analyze_sentiment data <;> rfl

/-- A freshly analyzed result carries the analyzed text. -/
theorem sentiment_analysis_text (fresh_id : UUID) (now : DateTime) (text : String)
    (data : List ProviderEntry) : (sentiment_analysis fresh_id now text data).text = text := by
  unfold sentiment_analysis
  cases analyze_sentiment data <;> rfl

/-- C8: when the provider call and the storage succeed, POST /sentiments
answers 201 with a Location header equal to `/sentiments/{id}` of the
created record, whose body is the created resource (re-readable from the
store) carrying hypermedia links self = `/sentiments/{id}` and
collection = `/sentiments`.  The freshness hypotheses state that the two
`uuid4()` draws do not collide with existing rows. -/
theorem C8_post_created (db : DB) (payload : TextInput) (data : List ProviderEntry)
    (sid rid : UUID) (now : DateTime)
    (hs : ∀ s ∈ db.sentiments, s.id ≠ sid)
    (hr : ∀ r ∈ db.requests, r.id ≠ rid) :
    ∃ db1 body,
      create_sentiment db payload (Except.ok data) none sid rid now =
        (db1, CreateResp.created ("/sentiments/" ++ toString body.id) body) ∧
      CreateResp.status_code (create_sentiment db payload (Except.ok data) none sid rid now).2 = 201 ∧
      body.id = sid ∧ body.text = payload.text ∧
      body.links = some { self := "/sentiments/" ++ toString body.id, collection := "/sentiments" } ∧
      SentimentMySQLService.retrieve db1 sid = some { body with links := none } := by
  set res := sentiment_analysis sid now payload.text data with hres
  have hid : res.id = sid := by rw [hres]; exact sentiment_analysis_id sid now payload.text data
  set db1 : DB := { requests := db.requests ++ [{ id := rid, input_text := payload.text, created_at := res.analyzed_at, user_id := none }], sentiments := db.sentiments ++ [{ id := res.id, request_id := rid, sentiment := res.sentiment, confidence := res.confidence, analyzed_at := res.analyzed_at }] } with hdb1
  have hfinds : db1.sentiments.find? (fun s => s.id == sid) = some { id := res.id, request_id := rid, sentiment := res.sentiment, confidence := res.confidence, analyzed_at := res.analyzed_at } := by
    rw [hdb1]
    dsimp only
    rw [List.find?_append, List.find?_eq_none.mpr (fun x hx => by simp [hs x hx])]
    simp [hid]
  have hfindr : db1.requests.find? (fun r => r.id == rid) = some { id := rid, input_text := payload.text, created_at := res.analyzed_at, user_id := none } := by
    rw [hdb1]
    dsimp only
    rw [List.find?_append, List.find?_eq_none.mpr (fun x hx => by simp [hr x hx])]
    simp
  have hretr : SentimentMySQLService.retrieve db1 sid = some { id := res.id, text := payload.text, sentiment := res.sentiment, confidence := res.confidence, analyzed_at := res.analyzed_at, links := none } := by
    unfold SentimentMySQLService.retrieve
    rw [hfinds]
    dsimp only
    rw [hfindr]
    rfl
  have hretr2 : SentimentMySQLService.retrieve db1 res.id = some { id := res.id, text := payload.text, sentiment := res.sentiment, confidence := res.confidence, analyzed_at := res.analyzed_at, links := none } := by
    conv_lhs => rw [hid]
    exact hretr
  have hstep : SentimentMySQLService.create db rid payload res = (db1, { id := res.id, text := payload.text, sentiment := res.sentiment, confidence := res.confidence, analyzed_at := res.analyzed_at, links := none }) := by
    unfold SentimentMySQLService.create
    dsimp only
    rw [← hdb1, hretr2]
    rfl
  have hmain : create_sentiment db payload (Except.ok data) none sid rid now = (db1, CreateResp.created ("/sentiments/" ++ toString res.id) (attach_links { id := res.id, text := payload.text, sentiment := res.sentiment, confidence := res.confidence, analyzed_at := res.analyzed_at, links := none })) := by
    unfold create_sentiment
    dsimp only
    rw [← hres, hstep]
    rfl
  refine ⟨db1, attach_links { id := res.id, text := payload.text, sentiment := res.sentiment, confidence := res.confidence, analyzed_at := res.analyzed_at, links := none }, hmain, ?_, ?_, rfl, rfl, ?_⟩
  · rw [hmain]
    rfl
  · exact hid
  · exact hretr

/-- Witness for C8 on the concrete store `wDB` with fresh ids 20, 21. -/
theorem C8_witness :
    (∀ s ∈ wDB.sentiments, s.id ≠ 20) ∧ (∀ r ∈ wDB.requests, r.id ≠ 21) ∧
    (∃ db1 body,
      create_sentiment wDB { text := "new" } (Except.ok wData) none 20 21 { ts := 30 } =
        (db1, CreateResp.created ("/sentiments/" ++ toString body.id) body) ∧
      CreateResp.status_code (create_sentiment wDB { text := "new" } (Except.ok wData) none 20 21 { ts := 30 }).2 = 201 ∧
      body.id = 20 ∧ body.text = ({ text := "new" } : TextInput).text ∧
      body.links = some { self := "/sentiments/" ++ toString body.id, collection := "/sentiments" } ∧
      SentimentMySQLService.retrieve db1 20 = some { body with links := none }) :=
  ⟨by decide, by decide,
   C8_post_created wDB { text := "new" } wData 20 21 { ts := 30 } (by decide) (by decide)⟩

/-- When no provider entry has status "success" with a non-null rate,
the selection loop never replaces its accumulator. -/
theorem best_provider_loop_none (data : List ProviderEntry)
    (h : ∀ r ∈ data, r.status = "success" → r.general_sentiment_rate = none) :
    ∀ best maxRate, best_provider_loop data best maxRate = best := by
  induction data with
  | nil => intro best maxRate; rfl
  | cons r rest ih =>
    intro best maxRate
    have hr := h r (List.mem_cons_self r rest)
    have hrest : ∀ x ∈ rest, x.status = "success" → x.general_sentiment_rate = none :=
      fun x hx => h x (List.mem_cons_of_mem r hx)
    cases hrate : r.general_sentiment_rate with
    | none =>
      unfold best_provider_loop
      rw [hrate]
      exact ih hrest best maxRate
    | some rate =>
      have hstat : ¬ r.status = "success" := fun hsucc => by
        rw [hr hsucc] at hrate
        exact Option.noConfusion hrate
      unfold best_provider_loop
      rw [hrate]
      simp only [hstat, if_false]
      exact ih hrest best maxRate

/-- C10: when the provider call returns without raising but no provider
result has status "success" with a non-null general_sentiment_rate,
`sentiment_analysis` does not fail: the best-result selection returns
none and the analysis yields sentiment "unknown" with confidence 0.0;
the synchronous POST on such data still answers 201, and an async job
running on such data still terminates completed. -/
theorem C10_no_success_defaults_unknown (text : String) (data : List ProviderEntry)
    (h : ∀ r ∈ data, r.status = "success" → r.general_sentiment_rate = none) :
    analyze_sentiment data = none ∧
    (∀ sid now, sentiment_analysis sid now text data =
      { id := sid, text := text, sentiment := "unknown", confidence := 0, analyzed_at := now, links := none }) ∧
    (∀ db sid rid now,
      CreateResp.status_code (create_sentiment db { text := text } (Except.ok data) none sid rid now).2 = 201) ∧
    (∀ jobs db job_id job sid rid now1 nowA now2, JobStore.get jobs job_id = some job →
      ∃ j, JobStore.get (run_sentiment_job jobs db job_id text (Except.ok data) none sid rid now1 nowA now2).1 job_id = some j ∧
        j.status = "completed") := by
  have hnone : analyze_sentiment data = none := best_provider_loop_none data h none (-1)
  refine ⟨hnone, ?_, ?_, ?_⟩
  · intro sid now
    unfold sentiment_analysis
    rw [hnone]
  · intro db sid rid now
    rfl
  · intro jobs db job_id job sid rid now1 nowA now2 hjob
    unfold run_sentiment_job run_sentiment_job_writes
    rw [hjob]
    dsimp only
    exact ⟨_, JobStore.get_set_self _ _ _, rfl⟩

/-- Witness for C10 on provider data with a failed entry and a
successful entry lacking a rate. -/
theorem C10_witness :
    (∀ r ∈ wData, r.status = "success" → r.general_sentiment_rate = none) ∧
    (analyze_sentiment wData = none ∧
     (∀ sid now, sentiment_analysis sid now "great service" wData =
       { id := sid, text := "great service", sentiment := "unknown", confidence := 0, analyzed_at := now, links := none }) ∧
     (∀ db sid rid now,
       CreateResp.status_code (create_sentiment db { text := "great service" } (Except.ok wData) none sid rid now).2 = 201) ∧
     (∀ jobs db job_id job sid rid now1 nowA now2, JobStore.get jobs job_id = some job →
       ∃ j, JobStore.get (run_sentiment_job jobs db job_id "great service" (Except.ok wData) none sid rid now1 nowA now2).1 job_id = some j ∧
         j.status = "completed")) :=
  ⟨by decide, C10_no_success_defaults_unknown "great service" wData (by decide)⟩

/-- C6: whenever the provider call raises (first conjunct) or the
storage create raises (second conjunct) inside `run_sentiment_job`, the
exception is caught — the embedded function is total and returns its
final state instead of propagating — the job's status becomes "failed"
and `str(e)` is stored in `error_message`. -/
theorem C6_job_failure_recorded (jobs : JobStore) (db : DB) (job_id : UUID) (text : String)
    (job : SentimentJobStatus) (e : String) (data : List ProviderEntry)
    (sid rid : UUID) (now1 nowA now2 : DateTime)
    (hjob : JobStore.get jobs job_id = some job) :
    (∃ j, JobStore.get (run_sentiment_job jobs db job_id text (Except.error e) none sid rid now1 nowA now2).1 job_id = some j ∧
      j.status = "failed" ∧ j.error_message = some e ∧
      (run_sentiment_job jobs db job_id text (Except.error e) none sid rid now1 nowA now2).2 = db) ∧
    (∃ j, JobStore.get (run_sentiment_job jobs db job_id text (Except.ok data) (some e) sid rid now1 nowA now2).1 job_id = some j ∧
      j.status = "failed" ∧ j.error_message = some e ∧
      (run_sentiment_job jobs db job_id text (Except.ok data) (some e) sid rid now1 nowA now2).2 = db) := by
  constructor
  · unfold run_sentiment_job run_sentiment_job_writes
    rw [hjob]
    dsimp only
    exact ⟨_, JobStore.get_set_self _ _ _, rfl, rfl, rfl⟩
  · unfold run_sentiment_job run_sentiment_job_writes
    rw [hjob]
    dsimp only
    exact ⟨_, JobStore.get_set_self _ _ _, rfl, rfl, rfl⟩

/-- Witness for C6 on a one-job store and the exception text "boom". -/
theorem C6_witness :
    JobStore.get [(1, wJob)] 1 = some wJob ∧
    ((∃ j, JobStore.get (run_sentiment_job [(1, wJob)] wDB 1 "t" (Except.error "boom") none 20 21 { ts := 1 } { ts := 2 } { ts := 3 }).1 1 = some j ∧
      j.status = "failed" ∧ j.error_message = some "boom" ∧
      (run_sentiment_job [(1, wJob)] wDB 1 "t" (Except.error "boom") none 20 21 { ts := 1 } { ts := 2 } { ts := 3 }).2 = wDB) ∧
     (∃ j, JobStore.get (run_sentiment_job [(1, wJob)] wDB 1 "t" (Except.ok wData) (some "boom") 20 21 { ts := 1 } { ts := 2 } { ts := 3 }).1 1 = some j ∧
      j.status = "failed" ∧ j.error_message = some "boom" ∧
      (run_sentiment_job [(1, wJob)] wDB 1 "t" (Except.ok wData) (some "boom") 20 21 { ts := 1 } { ts := 2 } { ts := 3 }).2 = wDB)) :=
  ⟨by decide,
   C6_job_failure_recorded [(1, wJob)] wDB 1 "t" wJob "boom" wData 20 21 { ts := 1 } { ts := 2 } { ts := 3 } (by decide)⟩

/-- A pending or running job with both outcome fields null satisfies the
job field invariant. -/
theorem invariant_nonterminal (j : SentimentJobStatus)
    (hst : j.status = "pending" ∨ j.status = "running")
    (h1 : j.result_id = none) (h2 : j.error_message = none) : job_field_invariant j := by
  rcases hst with h | h <;>
    exact ⟨fun hc => absurd (h.symm.trans hc) (by decide),
           fun hf => absurd (h.symm.trans hf) (by decide),
           fun _ => ⟨h1, h2⟩,
           fun hb => hb.1 h1⟩

/-- A completed job with a result id and no error message satisfies the
job field invariant. -/
theorem invariant_completed (j : SentimentJobStatus)
    (hst : j.status = "completed") (h1 : j.result_id ≠ none) (h2 : j.error_message = none) :
    job_field_invariant j :=
  ⟨fun _ => ⟨h1, h2⟩,
   fun hf => absurd (hst.symm.trans hf) (by decide),
   fun ho => ho.elim (fun h => absurd (hst.symm.trans h) (by decide))
                     (fun h => absurd (hst.symm.trans h) (by decide)),
   fun hb => hb.2 h2⟩

/-- A failed job with an error message and no result id satisfies the
job field invariant. -/
theorem invariant_failed (j : SentimentJobStatus)
    (hst : j.status = "failed") (h1 : j.result_id = none) (h2 : j.error_message ≠ none) :
    job_field_invariant j :=
  ⟨fun hc => absurd (hst.symm.trans hc) (by decide),
   fun _ => ⟨h1, h2⟩,
   fun ho => ho.elim (fun h => absurd (hst.symm.trans h) (by decide))
                     (fun h => absurd (hst.symm.trans h) (by decide)),
   fun hb => hb.1 h1⟩

/-- Every job stored at a just-written key satisfies any property of the
written value. -/
theorem invariant_at_set (m : JobStore) (job_id : UUID) (v : SentimentJobStatus)
    (hv : job_field_invariant v) :
    ∀ j, JobStore.get (JobStore.set m job_id v) job_id = some j → job_field_invariant j := by
  intro j hj
  rw [JobStore.get_set_self] at hj
  obtain rfl := Option.some.inj hj
  exact hv

/-- C3: at every observable point of an async job's lifecycle — after
the submission write and after each write of the background runner — the
record stored for the job satisfies: completed implies result_id set and
error_message null; failed implies error_message set and result_id null;
pending or running implies both null; the two are never both set.  The
second conjunct is the frame property: no other key of the job store is
ever touched. -/
theorem C3_job_record_invariant (jobs : JobStore) (db : DB) (text : String) (job_id : UUID)
    (now0 : DateTime) (provider : Except String (List ProviderEntry))
    (storage_fault : Option String) (sid rid : UUID) (now1 nowA now2 : DateTime) :
    ∀ s ∈ jobLifecycleStates jobs db text job_id now0 provider storage_fault sid rid now1 nowA now2,
      (∀ j, JobStore.get s.1 job_id = some j → job_field_invariant j) ∧
      (∀ k, k ≠ job_id → JobStore.get s.1 k = JobStore.get jobs k) := by
  intro s hs
  unfold jobLifecycleStates create_async_sentiment run_sentiment_job_writes at hs
  dsimp only at hs
  rw [JobStore.get_set_self] at hs
  rcases provider with e | datap
  · simp only [List.mem_cons, List.not_mem_nil, or_false] at hs
    rcases hs with rfl | rfl | rfl
    · exact ⟨invariant_at_set _ _ _ (invariant_nonterminal _ (Or.inl rfl) rfl rfl),
             fun k hk => JobStore.get_set_ne _ _ _ _ hk⟩
    · exact ⟨invariant_at_set _ _ _ (invariant_nonterminal _ (Or.inr rfl) rfl rfl),
             fun k hk => by rw [JobStore.get_set_ne _ _ _ _ hk, JobStore.get_set_ne _ _ _ _ hk]⟩
    · exact ⟨invariant_at_set _ _ _ (invariant_failed _ rfl rfl (Option.some_ne_none e)),
             fun k hk => by rw [JobStore.get_set_ne _ _ _ _ hk, JobStore.get_set_ne _ _ _ _ hk,
                               JobStore.get_set_ne _ _ _ _ hk]⟩
  · rcases storage_fault with _ | e
    · simp only [List.mem_cons, List.not_mem_nil, or_false] at hs
      rcases hs with rfl | rfl | rfl
      · exact ⟨invariant_at_set _ _ _ (invariant_nonterminal _ (Or.inl rfl) rfl rfl),
               fun k hk => JobStore.get_set_ne _ _ _ _ hk⟩
      · exact ⟨invariant_at_set _ _ _ (invariant_nonterminal _ (Or.inr rfl) rfl rfl),
               fun k hk => by rw [JobStore.get_set_ne _ _ _ _ hk, JobStore.get_set_ne _ _ _ _ hk]⟩
      · exact ⟨invariant_at_set _ _ _ (invariant_completed _ rfl (Option.some_ne_none _) rfl),
               fun k hk => by rw [JobStore.get_set_ne _ _ _ _ hk, JobStore.get_set_ne _ _ _ _ hk,
                                 JobStore.get_set_ne _ _ _ _ hk]⟩
    · simp only [List.mem_cons, List.not_mem_nil, or_false] at hs
      rcases hs with rfl | rfl | rfl
      · exact ⟨invariant_at_set _ _ _ (invariant_nonterminal _ (Or.inl rfl) rfl rfl),
               fun k hk => JobStore.get_set_ne _ _ _ _ hk⟩
      · exact ⟨invariant_at_set _ _ _ (invariant_nonterminal _ (Or.inr rfl) rfl rfl),
               fun k hk => by rw [JobStore.get_set_ne _ _ _ _ hk, JobStore.get_set_ne _ _ _ _ hk]⟩
      · exact ⟨invariant_at_set _ _ _ (invariant_failed _ rfl rfl (Option.some_ne_none e)),
               fun k hk => by rw [JobStore.get_set_ne _ _ _ _ hk, JobStore.get_set_ne _ _ _ _ hk,
                                 JobStore.get_set_ne _ _ _ _ hk]⟩

/-- Witness for C3 at the submission state of a concrete lifecycle. -/
theorem C3_witness :
    (JobStore.set [] 4 { id := 4, status := "pending", created_at := { ts := 0 }, updated_at := { ts := 0 }, result_id := none, error_message := none, links := none }, wDB) ∈
      jobLifecycleStates [] wDB "t" 4 { ts := 0 } (Except.ok wData) none 20 21 { ts := 1 } { ts := 2 } { ts := 3 } ∧
    ((∀ j, JobStore.get (JobStore.set [] 4 { id := 4, status := "pending", created_at := { ts := 0 }, updated_at := { ts := 0 }, result_id := none, error_message := none, links := none }) 4 = some j → job_field_invariant j) ∧
     (∀ k, k ≠ 4 → JobStore.get (JobStore.set [] 4 { id := 4, status := "pending", created_at := { ts := 0 }, updated_at := { ts := 0 }, result_id := none, error_message := none, links := none }) k = JobStore.get [] k)) :=
  ⟨by decide,
   C3_job_record_invariant [] wDB "t" 4 { ts := 0 } (Except.ok wData) none 20 21 { ts := 1 } { ts := 2 } { ts := 3 }
     (JobStore.set [] 4 { id := 4, status := "pending", created_at := { ts := 0 }, updated_at := { ts := 0 }, result_id := none, error_message := none, links := none }, wDB)
     (by decide)⟩

/-- C4: over a job's full lifecycle the stored status sequence is
exactly pending, running, then one terminal status (first conjunct); it
is monotone in the forward order pending → running → terminal (second
conjunct); once a terminal status is reached every later point shows
the same status — no regression out of a terminal state (third
conjunct); a terminal status is never reached without running occurring
strictly earlier (fourth conjunct); and polling after the runner
finishes observes the terminal state (fifth conjunct). -/
theorem C4_forward_only (jobs : JobStore) (db : DB) (text : String) (job_id : UUID)
    (now0 : DateTime) (provider : Except String (List ProviderEntry))
    (storage_fault : Option String) (sid rid : UUID) (now1 nowA now2 : DateTime) :
    (lifecycleStatuses jobs db text job_id now0 provider storage_fault sid rid now1 nowA now2 = ["pending", "running", "completed"] ∨
     lifecycleStatuses jobs db text job_id now0 provider storage_fault sid rid now1 nowA now2 = ["pending", "running", "failed"]) ∧
    List.Pairwise (fun a b => statusRank a ≤ statusRank b)
      (lifecycleStatuses jobs db text job_id now0 provider storage_fault sid rid now1 nowA now2) ∧
    List.Pairwise (fun a b => (a = "completed" ∨ a = "failed") → b = a)
      (lifecycleStatuses jobs db text job_id now0 provider storage_fault sid rid now1 nowA now2) ∧
    (∀ i, i < (lifecycleStatuses jobs db text job_id now0 provider storage_fault sid rid now1 nowA now2).length →
      ((lifecycleStatuses jobs db text job_id now0 provider storage_fault sid rid now1 nowA now2).getD i "" = "completed" ∨
       (lifecycleStatuses jobs db text job_id now0 provider storage_fault sid rid now1 nowA now2).getD i "" = "failed") →
      ∃ k, k < i ∧ (lifecycleStatuses jobs db text job_id now0 provider storage_fault sid rid now1 nowA now2).getD k "" = "running") ∧
    (∃ j, JobStore.get (run_sentiment_job (create_async_sentiment jobs { text := text } job_id now0).1 db job_id text provider storage_fault sid rid now1 nowA now2).1 job_id = some j ∧
      (j.status = "completed" ∨ j.status = "failed") ∧
      get_async_sentiment_status (run_sentiment_job (create_async_sentiment jobs { text := text } job_id now0).1 db job_id text provider storage_fault sid rid now1 nowA now2).1 job_id = Except.ok (attach_job_links j)) := by
  have hL : (lifecycleStatuses jobs db text job_id now0 provider storage_fault sid rid now1 nowA now2 = ["pending", "running", "completed"] ∨
      lifecycleStatuses jobs db text job_id now0 provider storage_fault sid rid now1 nowA now2 = ["pending", "running", "failed"]) := by
    rcases provider with e | datap
    · right
      simp [lifecycleStatuses, jobLifecycleStates, create_async_sentiment,
        run_sentiment_job_writes, JobStore.get_set_self, markRunning, markFailed]
    · rcases storage_fault with _ | e
      · left
        simp [lifecycleStatuses, jobLifecycleStates, create_async_sentiment,
          run_sentiment_job_writes, JobStore.get_set_self, markRunning, markCompleted]
      · right
        simp [lifecycleStatuses, jobLifecycleStates, create_async_sentiment,
          run_sentiment_job_writes, JobStore.get_set_self, markRunning, markFailed]
  refine ⟨hL, ?_, ?_, ?_, ?_⟩
  · rcases hL with h | h <;> rw [h] <;> decide
  · rcases hL with h | h <;> rw [h] <;> decide
  · intro i hi hterm
    rcases hL with h | h
    · rw [h] at hi hterm
      rw [h]
      have hi3 : i < 3 := by simpa using hi
      interval_cases i
      · exact absurd hterm (by decide)
      · exact absurd hterm (by decide)
      · exact ⟨1, by decide, by decide⟩
    · rw [h] at hi hterm
      rw [h]
      have hi3 : i < 3 := by simpa using hi
      interval_cases i
      · exact absurd hterm (by decide)
      · exact absurd hterm (by decide)
      · exact ⟨1, by decide, by decide⟩
  · rcases provider with e | datap
    · unfold run_sentiment_job run_sentiment_job_writes create_async_sentiment
      dsimp only
      rw [JobStore.get_set_self]
      dsimp only
      refine ⟨_, JobStore.get_set_self _ _ _, Or.inr rfl, ?_⟩
      unfold get_async_sentiment_status
      simp [JobStore.get_set_self]
    · rcases storage_fault with _ | e
      · unfold run_sentiment_job run_sentiment_job_writes create_async_sentiment
        dsimp only
        rw [JobStore.get_set_self]
        dsimp only
        refine ⟨_, JobStore.get_set_self _ _ _, Or.inl rfl, ?_⟩
        unfold get_async_sentiment_status
        simp [JobStore.get_set_self]
      · unfold run_sentiment_job run_sentiment_job_writes create_async_sentiment
        dsimp only
        rw [JobStore.get_set_self]
        dsimp only
        refine ⟨_, JobStore.get_set_self _ _ _, Or.inr rfl, ?_⟩
        unfold get_async_sentiment_status
        simp [JobStore.get_set_self]

/-- Witness for C4 on a concrete lifecycle (provider data with no
successful entry, storage succeeding). -/
theorem C4_witness :
    (lifecycleStatuses [] wDB "t" 4 { ts := 0 } (Except.ok wData) none 20 21 { ts := 1 } { ts := 2 } { ts := 3 } = ["pending", "running", "completed"] ∨
     lifecycleStatuses [] wDB "t" 4 { ts := 0 } (Except.ok wData) none 20 21 { ts := 1 } { ts := 2 } { ts := 3 } = ["pending", "running", "failed"]) ∧
    List.Pairwise (fun a b => statusRank a ≤ statusRank b) (lifecycleStatuses [] wDB "t" 4 { ts := 0 } (Except.ok wData) none 20 21 { ts := 1 } { ts := 2 } { ts := 3 }) ∧
    List.Pairwise (fun a b => (a = "completed" ∨ a = "failed") → b = a) (lifecycleStatuses [] wDB "t" 4 { ts := 0 } (Except.ok wData) none 20 21 { ts := 1 } { ts := 2 } { ts := 3 }) ∧
    (∀ i, i < (lifecycleStatuses [] wDB "t" 4 { ts := 0 } (Except.ok wData) none 20 21 { ts := 1 } { ts := 2 } { ts := 3 }).length →
      ((lifecycleStatuses [] wDB "t" 4 { ts := 0 } (Except.ok wData) none 20 21 { ts := 1 } { ts := 2 } { ts := 3 }).getD i "" = "completed" ∨
       (lifecycleStatuses [] wDB "t" 4 { ts := 0 } (Except.ok wData) none 20 21 { ts := 1 } { ts := 2 } { ts := 3 }).getD i "" = "failed") →
      ∃ k, k < i ∧ (lifecycleStatuses [] wDB "t" 4 { ts := 0 } (Except.ok wData) none 20 21 { ts := 1 } { ts := 2 } { ts := 3 }).getD k "" = "running") ∧
    (∃ j, JobStore.get (run_sentiment_job (create_async_sentiment [] { text := "t" } 4 { ts := 0 }).1 wDB 4 "t" (Except.ok wData) none 20 21 { ts := 1 } { ts := 2 } { ts := 3 }).1 4 = some j ∧
      (j.status = "completed" ∨ j.status = "failed") ∧
      get_async_sentiment_status (run_sentiment_job (create_async_sentiment [] { text := "t" } 4 { ts := 0 }).1 wDB 4 "t" (Except.ok wData) none 20 21 { ts := 1 } { ts := 2 } { ts := 3 }).1 4 = Except.ok (attach_job_links j)) :=
  C4_forward_only [] wDB "t" 4 { ts := 0 } (Except.ok wData) none 20 21 { ts := 1 } { ts := 2 } { ts := 3 }
